import Mathlib

/-!
Verification of the corynth/plugins JSON stdio plugin protocol.

Each plugin is a standalone Go executable: argv[1] selects a mode
(`metadata`, `actions`, or an action name); an action request arrives as a
JSON object on stdin and exactly one JSON document is written to stdout.

This file shallowly embeds, from the Go sources under `src/`:
  * the JSON value model (Go `interface{}` values produced by
    `encoding/json.Unmarshal`, with numbers as `float64`, modelled as `ℚ`);
  * the per-plugin `main` runtimes (the template-style runtime shared by
    calculator / http / aws / sql / email / template / reporting / ansible /
    file, plus the divergent slack and llm runtimes);
  * the calculator plugin's expression evaluator (`evalNode` and friends)
    together with a model of Go's `parser.ParseExpr` restricted to the
    arithmetic fragment the plugin accepts;
  * the parameter-handling prefixes of the handlers the claims cite
    (http `makeGetRequest`, template `exampleAction`, calculator
    `calculate`, slack `sendMessage` / `sendWebhook`).

Byte-level JSON parsing is Go standard-library code; stdin is therefore
modelled already classified: empty, unreadable, malformed (non-empty but
not a JSON object), or parsed to an object.  Handler code past the point
where it contacts an external collaborator (HTTP, subprocess) is outside
the repository and is represented as a residual `none`.
-/

/-- A JSON value as decoded by Go's `encoding/json` into `interface{}`:
strings, numbers (`float64`, modelled exactly as `ℚ`), booleans, null,
arrays, and objects (Go `map[string]interface{}`, modelled as an
association list). -/
inductive Json where
  | str (s : String)
  | num (q : ℚ)
  | bool (b : Bool)
  | null
  | arr (elems : List Json)
  | obj (fields : List (String × Json))


/-- A decoded request object: the `map[string]interface{}` each plugin's
`Execute` receives. -/
abbrev Obj := List (String × Json)

/-- Lookup of a key in a request object (Go map indexing `params[key]`). -/
def Obj.get (params : Obj) (key : String) : Option Json :=
  List.lookup key params

/-- The JSON type tag of a value, as the spec's Parameter Codec observes it. -/
def jsonTypeOf : Json → String
  | .str _ => "string"
  | .num _ => "number"
  | .bool _ => "boolean"
  | .null => "null"
  | .arr _ => "array"
  | .obj _ => "object"

/-- The failure envelope `{"error": msg}` (Go
`map[string]interface{}{"error": msg}`). -/
def errObj (msg : String) : Json :=
  Json.obj [("error", Json.str msg)]

/-- Stdin as the plugin runtimes classify it: `io.ReadAll` may fail
(`readErr`); otherwise the bytes are empty, or non-empty but rejected by
`json.Unmarshal` into `map[string]interface{}` (`malformed`, carrying the
parse error text), or successfully decoded to an object (`parsed`). -/
inductive Stdin where
  | empty
  | readErr (msg : String)
  | malformed (msg : String)
  | parsed (params : Obj)


/-- Go plugin metadata struct (identical in every plugin source). -/
structure Metadata where
  name : String
  version : String
  description : String
  author : String
  tags : List String


/-- JSON encoding of `Metadata` (Go struct fields in declaration order). -/
def encodeMetadata (m : Metadata) : Json :=
  Json.obj [("name", Json.str m.name), ("version", Json.str m.version),
    ("description", Json.str m.description), ("author", Json.str m.author),
    ("tags", Json.arr (m.tags.map Json.str))]

/-- Go `IOSpec` struct: one input/output parameter's static description
(`Type`, `Required`, `Default` with `omitempty`, `Description`). -/
structure IOSpec where
  type : String
  required : Bool
  default : Option Json
  description : String


/-- Go `ActionSpec` struct: description plus input and output tables. -/
structure ActionSpec where
  description : String
  inputs : List (String × IOSpec)
  outputs : List (String × IOSpec)


/-- JSON encoding of `IOSpec` (struct field order; `default` omitted when
absent, per the `omitempty` tag). -/
def encodeIOSpec (s : IOSpec) : Json :=
  Json.obj
    ([("type", Json.str s.type), ("required", Json.bool s.required)] ++
      (match s.default with
        | some d => [("default", d)]
        | none => []) ++
      [("description", Json.str s.description)])

/-- JSON encoding of an `ActionSpec`. -/
def encodeActionSpec (s : ActionSpec) : Json :=
  Json.obj [("description", Json.str s.description),
    ("inputs", Json.obj (s.inputs.map (fun p => (p.1, encodeIOSpec p.2)))),
    ("outputs", Json.obj (s.outputs.map (fun p => (p.1, encodeIOSpec p.2))))]

/-- JSON encoding of a plugin's action table (Go map; `encoding/json`
emits map keys in sorted order, so tables below list keys sorted). -/
def encodeActions (acts : List (String × ActionSpec)) : Json :=
  Json.obj (acts.map (fun p => (p.1, encodeActionSpec p.2)))

/-- The data a template-style plugin binary supplies to its `main`:
static metadata and actions JSON, the `Execute` dispatch function
returning Go's `(map[string]interface{}, error)` pair, and the runtime's
two stdin error message prefixes. -/
structure Plugin where
  metadataJson : Json
  actionsJson : Json
  execute : String → Obj → Option Obj × Option String
  parseErrText : String
  readErrText : String

/-- How the template-style `main` turns `Execute`'s `(result, err)` pair
into the JSON document it encodes: a non-nil `err` replaces the result
with `{"error": err.Error()}`; a nil Go map encodes as `null`. -/
def encodeResult : Option Obj × Option String → Json
  | (_, some e) => errObj e
  | (some fields, none) => Json.obj fields
  | (none, none) => Json.null

/-- The template-style `main` shared verbatim by the calculator, http,
aws, sql, template, email, reporting, ansible and file plugins:
missing argv writes `{"error": "action required"}` and exits 1;
`metadata` / `actions` answer from the static tables without touching
stdin; any other argv reads stdin, surfaces read/parse failures as error
envelopes, and otherwise dispatches through `Execute` (empty stdin is
treated as an empty parameter object).  Result: the single JSON document
written to stdout, paired with the process exit code. -/
def runMain (p : Plugin) (argv : Option String) (stdin : Stdin) : Json × Nat :=
  match argv with
  | none => (errObj "action required", 1)
  | some action =>
    if action = "metadata" then (p.metadataJson, 0)
    else if action = "actions" then (p.actionsJson, 0)
    else
      match stdin with
      | .readErr m => (errObj (p.readErrText ++ m), 0)
      | .malformed m => (errObj (p.parseErrText ++ m), 0)
      | .empty => (encodeResult (p.execute action []), 0)
      | .parsed ps => (encodeResult (p.execute action ps), 0)

/-- go/token operators the calculator's evaluator understands
(`ADD`, `SUB`, `MUL`, `QUO`, `REM`). -/
inductive Op where
  | add | sub | mul | quo | rem
deriving DecidableEq

/-- %v rendering of a go/token operator. -/
def Op.text : Op → String
  | .add => "+"
  | .sub => "-"
  | .mul => "*"
  | .quo => "/"
  | .rem => "%"

/-- go/token literal kinds `evalBasicLit` accepts (`INT`, `FLOAT`). -/
inductive LitKind where
  | int | float
deriving DecidableEq

/-- The go/ast fragment `CalculatorPlugin.evalNode` handles: binary and
unary expressions, parentheses, basic literals (carrying the literal
text, as `ast.BasicLit.Value` does) and identifiers. -/
inductive Expr where
  | lit (kind : LitKind) (value : String)
  | ident (name : String)
  | unary (op : Op) (x : Expr)
  | binary (op : Op) (x y : Expr)
  | paren (x : Expr)
deriving DecidableEq

/-- The exact rational value of the float64 constant `math.Pi`. -/
def float64Pi : ℚ := 884279719003555 / 281474976710656

/-- The exact rational value of the float64 constant `math.E`. -/
def float64E : ℚ := 6121026514868073 / 2251799813685248

/-- Truncation toward zero, Go's `int(f)` conversion from float64. -/
def goInt (q : ℚ) : Int :=
  if 0 ≤ q then ⌊q⌋ else -⌊-q⌋

/-- Go `math.Round`: round half away from zero. -/
def goRound (q : ℚ) : ℚ :=
  if 0 ≤ q then (⌊q + 1/2⌋ : ℚ) else -(⌊-q + 1/2⌋ : ℚ)

/-- Go `math.Mod`: remainder with the sign of the dividend,
`x - Trunc(x/y)*y` (callers guard `y ≠ 0`). -/
def goMod (x y : ℚ) : ℚ :=
  x - (goInt (x / y) : ℚ) * y

/-- The numeric value of a non-empty all-digit character list, the core
of `strconv` decimal parsing. -/
def decDigits? : List Char → Option Nat
  | [] => none
  | cs => go cs 0
where
  go : List Char → Nat → Option Nat
    | [], acc => some acc
    | c :: cs, acc =>
      if c.isDigit then go cs (acc * 10 + (c.toNat - 48)) else none

/-- Decimal digit-string to `Nat` (`strconv.ParseInt` on the unsigned
digit strings the Go scanner produces for `INT` tokens). -/
def strToNat (s : String) : Option Nat :=
  decDigits? s.data

/-- Decimal literal text to an exact rational (`strconv.ParseFloat` on
the `FLOAT` tokens the Go scanner produces, `digits [. digits]`; the
subsequent float64 rounding step is modelled as exact, which agrees with
Go on every literal the claims touch). -/
def parseDecimal (s : String) : Option ℚ :=
  let cs := s.data
  let ip := cs.takeWhile (fun c => c != '.')
  let rest := cs.dropWhile (fun c => c != '.')
  match rest with
  | [] => (decDigits? ip).map (fun n => (n : ℚ))
  | _ :: fp =>
    if fp.contains '.' then none
    else
      match decDigits? ip, (if fp.isEmpty then some 0 else decDigits? fp) with
      | some a, some b => some ((a : ℚ) + (b : ℚ) / (10 : ℚ) ^ fp.length)
      | _, _ => none

/-- `CalculatorPlugin.evalBasicLit`: `INT` literals via
`strconv.ParseInt(v, 10, 64)` (failing outside the int64 range), `FLOAT`
literals via `strconv.ParseFloat`.  The strconv error strings interpolated
by `%v` are abbreviated; no claim depends on their text. -/
def evalBasicLit (kind : LitKind) (value : String) : Except String ℚ :=
  match kind with
  | .int =>
    match strToNat value with
    | some n => if n < 2 ^ 63 then .ok (n : ℚ) else .error "invalid integer: value out of range"
    | none => .error "invalid integer: invalid syntax"
  | .float =>
    match parseDecimal value with
    | some q => .ok q
    | none => .error "invalid float: invalid syntax"

/-- The operator dispatch of `CalculatorPlugin.evalBinaryExpr` after both
operands evaluated: `+`, `-`, `*`, guarded `/` and `%`. -/
def evalBinaryExpr (op : Op) (left right : ℚ) : Except String ℚ :=
  match op with
  | .add => .ok (left + right)
  | .sub => .ok (left - right)
  | .mul => .ok (left * right)
  | .quo => if right = 0 then .error "division by zero" else .ok (left / right)
  | .rem => if right = 0 then .error "modulo by zero" else .ok (goMod left right)

/-- The operator dispatch of `CalculatorPlugin.evalUnaryExpr` after the
operand evaluated. -/
def evalUnaryExpr (op : Op) (operand : ℚ) : Except String ℚ :=
  match op with
  | .add => .ok operand
  | .sub => .ok (-operand)
  | _ => .error ("unsupported unary operator: " ++ op.text)

/-- `CalculatorPlugin.evalNode`: recursive evaluation over the AST, with
only the identifiers `pi` and `e` defined. -/
def evalNode : Expr → Except String ℚ
  | .binary op x y =>
    match evalNode x with
    | .error e => .error e
    | .ok left =>
      match evalNode y with
      | .error e => .error e
      | .ok right => evalBinaryExpr op left right
  | .unary op x =>
    match evalNode x with
    | .error e => .error e
    | .ok operand => evalUnaryExpr op operand
  | .paren x => evalNode x
  | .lit kind value => evalBasicLit kind value
  | .ident name =>
    if name = "pi" then .ok float64Pi
    else if name = "e" then .ok float64E
    else .error ("undefined identifier: " ++ name)

/-- Tokens of the arithmetic fragment: number and identifier literals,
the five operators, and parentheses. -/
inductive Tok where
  | num (value : String) (isFloat : Bool)
  | ident (name : String)
  | plus | minus | star | slash | percent | lparen | rparen
deriving DecidableEq

/-- Binary-operator token with its Go precedence
(`+` `-` bind at 1, `*` `/` `%` at 2). -/
def Tok.binOp : Tok → Option (Op × Nat)
  | .plus => some (.add, 1)
  | .minus => some (.sub, 1)
  | .star => some (.mul, 2)
  | .slash => some (.quo, 2)
  | .percent => some (.rem, 2)
  | _ => none

/-- Modelled from the spec: the scanner underlying Go's
`parser.ParseExpr` (standard library, not part of this repository),
restricted to the fragment the calculator documents — decimal integer
and float literals, identifiers, `+ - * / %` and parentheses
("supports +, -, *, /, %, parentheses"; Scenario A).  Fuel-indexed;
every step consumes at least one character. -/
def tokenizeAux : Nat → List Char → Option (List Tok)
  | 0, _ => none
  | _ + 1, [] => some []
  | fuel + 1, c :: cs =>
    if c = ' ' ∨ c = '\t' ∨ c = '\n' ∨ c = '\r' then tokenizeAux fuel cs
    else if c.isDigit then
      let digits := List.takeWhile Char.isDigit (c :: cs)
      let rest := List.dropWhile Char.isDigit (c :: cs)
      match rest with
      | '.' :: rest2 =>
        let frac := List.takeWhile Char.isDigit rest2
        let rest3 := List.dropWhile Char.isDigit rest2
        (tokenizeAux fuel rest3).map
          (fun ts => Tok.num (String.mk (digits ++ '.' :: frac)) true :: ts)
      | _ =>
        (tokenizeAux fuel rest).map (fun ts => Tok.num (String.mk digits) false :: ts)
    else if c.isAlpha then
      let name := List.takeWhile Char.isAlpha (c :: cs)
      let rest := List.dropWhile Char.isAlpha (c :: cs)
      (tokenizeAux fuel rest).map (fun ts => Tok.ident (String.mk name) :: ts)
    else
      let tk : Option Tok :=
        if c = '+' then some .plus
        else if c = '-' then some .minus
        else if c = '*' then some .star
        else if c = '/' then some .slash
        else if c = '%' then some .percent
        else if c = '(' then some .lparen
        else if c = ')' then some .rparen
        else none
      match tk with
      | some t => (tokenizeAux fuel cs).map (fun ts => t :: ts)
      | none => none

/-- Tokenize a whole expression string. -/
def tokenize (s : String) : Option (List Tok) :=
  tokenizeAux (s.length + 1) s.data

mutual

/-- Modelled from the spec: operand parsing of Go's `parser.ParseExpr`
(standard library, not part of this repository) — unary `+`/`-`
(binding tighter than any binary operator), literals, identifiers, and
parenthesized subexpressions. -/
def parseAtomF : Nat → List Tok → Option (Expr × List Tok)
  | 0, _ => none
  | fuel + 1, ts =>
    match ts with
    | .plus :: rest => (parseAtomF fuel rest).map (fun p => (.unary .add p.1, p.2))
    | .minus :: rest => (parseAtomF fuel rest).map (fun p => (.unary .sub p.1, p.2))
    | .num v isF :: rest => some (.lit (if isF then .float else .int) v, rest)
    | .ident n :: rest => some (.ident n, rest)
    | .lparen :: rest =>
      match parseBinF fuel 1 rest with
      | some (e, .rparen :: rest2) => some (.paren e, rest2)
      | _ => none
    | _ => none

/-- Modelled from the spec: binary-expression parsing of Go's
`parser.ParseExpr` by precedence climbing ("evaluation follows standard
arithmetic operator precedence", Scenario A): parse an operand, then
fold in operators of precedence at least `minPrec`. -/
def parseBinF : Nat → Nat → List Tok → Option (Expr × List Tok)
  | 0, _, _ => none
  | fuel + 1, minPrec, ts =>
    match parseAtomF fuel ts with
    | some (lhs, rest) => parseChainF fuel minPrec lhs rest
    | none => none

/-- The left-associative operator chain at a given minimum precedence:
each right operand is parsed one precedence level higher. -/
def parseChainF : Nat → Nat → Expr → List Tok → Option (Expr × List Tok)
  | 0, _, _, _ => none
  | fuel + 1, minPrec, lhs, ts =>
    match ts with
    | t :: rest =>
      match t.binOp with
      | some (op, prec) =>
        if minPrec ≤ prec then
          match parseBinF fuel (prec + 1) rest with
          | some (rhs, rest2) => parseChainF fuel minPrec (Expr.binary op lhs rhs) rest2
          | none => none
        else some (lhs, ts)
      | none => some (lhs, ts)
    | [] => some (lhs, [])

end

/-- Modelled from the spec: Go's `parser.ParseExpr` on the calculator's
arithmetic fragment — tokenize, parse a full expression, and require all
tokens consumed. -/
def parseGoExpr (s : String) : Option Expr :=
  match tokenize s with
  | some ts =>
    match parseBinF (2 * ts.length + 2) 1 ts with
    | some (e, []) => some e
    | _ => none
  | none => none

/-- `CalculatorPlugin.evaluateExpression`: parse then evaluate.  The Go
parser's own error text (interpolated by `syntax error: %v`) is
abbreviated to a fixed message; no claim depends on it. -/
def evaluateExpression (expr : String) : Except String ℚ :=
  match parseGoExpr expr with
  | none => .error "syntax error: expected operand"
  | some node => evalNode node

/-- The effective precision `CalculatorPlugin.calculate` uses: default 2;
a number parameter is converted by `int(prec)` and clamped at 0; a
missing or non-number parameter leaves the default (Go's failed type
assertion `params["precision"].(float64)`). -/
def precisionOf (params : Obj) : Int :=
  match params.get "precision" with
  | some (.num prec) =>
    let p := goInt prec
    if p < 0 then 0 else p
  | _ => 2

/-- `CalculatorPlugin.calculate`: requires a non-empty string
`expression` (failed assertion or empty string yields the
`expression parameter is required` envelope with nil error), evaluates
it, reports evaluation errors as `Invalid expression: <err>` envelopes
carrying the original expression and a nil Go error, and otherwise
rounds the result to the requested precision. -/
def calculate (params : Obj) : Option Obj × Option String :=
  match params.get "expression" with
  | some (.str expression) =>
    if expression = "" then
      (some [("error", Json.str "expression parameter is required")], none)
    else
      let precision := precisionOf params
      match evaluateExpression expression with
      | .error e =>
        (some [("error", Json.str ("Invalid expression: " ++ e)),
          ("expression", Json.str expression)], none)
      | .ok result =>
        let rounded :=
          if 0 < precision then
            let multiplier := (10 : ℚ) ^ precision.toNat
            goRound (result * multiplier) / multiplier
          else goRound result
        (some [("result", Json.num rounded), ("expression", Json.str expression)], none)
  | _ => (some [("error", Json.str "expression parameter is required")], none)

/-- `CalculatorPlugin.Execute`: dispatch on the action name; anything but
`calculate` returns the Go error `unknown action: <name>`. -/
def calculatorExecute (action : String) (params : Obj) : Option Obj × Option String :=
  if action = "calculate" then calculate params
  else (none, some ("unknown action: " ++ action))

/-- `CalculatorPlugin.GetMetadata`. -/
def calculatorGetMetadata : Metadata :=
  { name := "calculator", version := "1.0.0",
    description := "Mathematical calculations with safe expression evaluation",
    author := "Corynth Team", tags := ["math", "calculation", "utility", "ast"] }

/-- `CalculatorPlugin.GetActions` (entries in source declaration order;
`Json.obj` models the unordered Go map). -/
def calculatorGetActions : List (String × ActionSpec) :=
  [("calculate",
    { description := "Perform safe mathematical calculations using AST parsing",
      inputs :=
        [("expression",
          { type := "string", required := true, default := none,
            description := "Mathematical expression to evaluate (supports +, -, *, /, %, parentheses)" }),
         ("precision",
          { type := "number", required := false, default := some (Json.num 2),
            description := "Decimal precision for results" })],
      outputs :=
        [("result",
          { type := "number", required := false, default := none,
            description := "Calculation result" }),
         ("expression",
          { type := "string", required := false, default := none,
            description := "Original expression" })] })]

/-- The calculator binary as a template-style plugin. -/
def calculatorPlugin : Plugin :=
  { metadataJson := encodeMetadata calculatorGetMetadata,
    actionsJson := encodeActions calculatorGetActions,
    execute := calculatorExecute,
    parseErrText := "failed to parse JSON: ",
    readErrText := "failed to read input: " }

/-- `HTTPPlugin.GetActions` (entries and parameters in source declaration
order; `Json.obj` models the unordered Go map). -/
def httpGetActions : List (String × ActionSpec) :=
  [("get",
    { description := "Make HTTP GET requests with headers",
      inputs :=
        [("url",
          { type := "string", required := true, default := none,
            description := "Request URL" }),
         ("headers",
          { type := "object", required := false, default := none,
            description := "HTTP headers" }),
         ("timeout",
          { type := "number", required := false, default := some (Json.num 30),
            description := "Request timeout in seconds" }),
         ("auth",
          { type := "object", required := false, default := none,
            description := "Basic auth with username/password" })],
      outputs :=
        [("status_code",
          { type := "number", required := false, default := none,
            description := "HTTP status code" }),
         ("headers",
          { type := "object", required := false, default := none,
            description := "Response headers" }),
         ("content",
          { type := "string", required := false, default := none,
            description := "Response body" }),
         ("json",
          { type := "object", required := false, default := none,
            description := "Parsed JSON response (if applicable)" })] }),
   ("post",
    { description := "Make HTTP POST requests with JSON data",
      inputs :=
        [("url",
          { type := "string", required := true, default := none,
            description := "Request URL" }),
         ("headers",
          { type := "object", required := false, default := none,
            description := "HTTP headers" }),
         ("body",
          { type := "string", required := false, default := none,
            description := "Request body as string" }),
         ("json",
          { type := "object", required := false, default := none,
            description := "Request body as JSON" }),
         ("timeout",
          { type := "number", required := false, default := some (Json.num 30),
            description := "Request timeout in seconds" }),
         ("auth",
          { type := "object", required := false, default := none,
            description := "Basic auth with username/password" }),
         ("content_type",
          { type := "string", required := false,
            default := some (Json.str "application/json"),
            description := "Content-Type header" })],
      outputs :=
        [("status_code",
          { type := "number", required := false, default := none,
            description := "HTTP status code" }),
         ("headers",
          { type := "object", required := false, default := none,
            description := "Response headers" }),
         ("content",
          { type := "string", required := false, default := none,
            description := "Response body" }),
         ("json",
          { type := "object", required := false, default := none,
            description := "Parsed JSON response (if applicable)" })] })]

/-- The parameter-validation opening of `HTTPPlugin.makeGetRequest`: the
type assertion `params["url"].(string)` must succeed with a non-empty
string, otherwise the handler returns the `url is required` envelope
(with nil Go error) before any request is built.  `some env` is that
early failure envelope; `none` means the handler proceeds to build and
send the HTTP request (an external collaborator, outside this model). -/
def makeGetRequestCheck (params : Obj) : Option (Option Obj × Option String) :=
  match params.get "url" with
  | some (.str url) =>
    if url = "" then some (some [("error", Json.str "url is required")], none) else none
  | _ => some (some [("error", Json.str "url is required")], none)

/-- Decode errors of the spec's Parameter Codec (section 4.1 and section
7's taxonomy): `InvalidInput`, `MissingParameter(name)`,
`TypeMismatch(name, expected, actual)`. -/
inductive DecodeError where
  | invalidInput (msg : String)
  | missingParameter (name : String)
  | typeMismatch (name expected actual : String)
deriving DecidableEq

/-- Modelled from the spec (section 4.1, Parameter Codec — the repository
has no shared codec; each handler validates ad hoc): walk the declared
inputs in declaration order; a present parameter must match its declared
JSON type or decoding fails with `TypeMismatch(name, expected, actual)`;
an absent required parameter fails with `MissingParameter(name)`; an
absent optional parameter receives the spec default when one exists. -/
def specDecodeParams (raw : Obj) : List (String × IOSpec) → Except DecodeError Obj
  | [] => .ok []
  | (name, s) :: rest =>
    match raw.get name with
    | some v =>
      if jsonTypeOf v = s.type then
        (specDecodeParams raw rest).map (fun acc => (name, v) :: acc)
      else .error (.typeMismatch name s.type (jsonTypeOf v))
    | none =>
      if s.required then .error (.missingParameter name)
      else
        match s.default with
        | some d => (specDecodeParams raw rest).map (fun acc => (name, d) :: acc)
        | none => specDecodeParams raw rest

/-- Modelled from the spec (section 4.1): the full codec on an
already-parsed JSON object — declared parameters validated and
defaulted, undeclared keys passed through unchanged. -/
def specDecode (raw : Obj) (inputs : List (String × IOSpec)) : Except DecodeError Obj :=
  (specDecodeParams raw inputs).map
    (fun declared => declared ++ raw.filter (fun kv => (List.lookup kv.1 inputs).isNone))

/-- `YourPlugin.GetActions` from the plugin template. -/
def templateGetActions : List (String × ActionSpec) :=
  [("example_action",
    { description := "Example action that does something",
      inputs :=
        [("input_param",
          { type := "string", required := true, default := none,
            description := "An example input parameter" }),
         ("optional_param",
          { type := "number", required := false, default := some (Json.num 10),
            description := "An optional parameter with default" })],
      outputs :=
        [("result",
          { type := "string", required := false, default := none,
            description := "The action result" }),
         ("success",
          { type := "boolean", required := false, default := none,
            description := "Whether the action succeeded" })] })]

/-- Go `fmt.Sprintf("%.2f", q)`: sign, integer part, and two fractional
digits.  Go's formatter breaks ties to even; this model rounds ties away
from zero — no claim evaluates it at a tie. -/
def formatFloat2 (q : ℚ) : String :=
  let scaled : Int := ⌊|q| * 100 + 1/2⌋
  let ip := scaled / 100
  let fp := scaled % 100
  (if q < 0 then "-" else "") ++ toString ip ++ "." ++
    (if fp < 10 then "0" else "") ++ toString fp

/-- The value `YourPlugin.exampleAction` uses for `optional_param`:
starts at `10.0`; overwritten only when the key exists and the type
assertion `.(float64)` succeeds. -/
def optionalParamOf (params : Obj) : ℚ :=
  match params.get "optional_param" with
  | some (.num floatVal) => floatVal
  | _ => 10

/-- `YourPlugin.exampleAction`: the required string `input_param` is
extracted by type assertion — failure yields the
`input_param must be a string` envelope (with nil Go error) and no
mention of the observed type; `optional_param` falls back to its default
silently; otherwise a success map is returned. -/
def exampleAction (params : Obj) : Option Obj × Option String :=
  match params.get "input_param" with
  | some (.str inputParam) =>
    (some [("result", Json.str
        ("Processed " ++ inputParam ++ " with value " ++ formatFloat2 (optionalParamOf params))),
      ("success", Json.bool true)], none)
  | _ => (some [("error", Json.str "input_param must be a string")], none)

/-- The template's helper `getFloatParam`: a failed `.(float64)` type
assertion (wrong type or absent key) silently yields the caller's
default. -/
def getFloatParam (params : Obj) (key : String) (defaultValue : ℚ) : ℚ :=
  match params.get key with
  | some (.num val) => val
  | _ => defaultValue

/-- `YourPlugin.Execute` from the plugin template. -/
def templateExecute (action : String) (params : Obj) : Option Obj × Option String :=
  if action = "example_action" then exampleAction params
  else (none, some ("unknown action: " ++ action))

/-- Slack's `InputSpec` struct (no `Default` field, unlike `IOSpec`). -/
structure SlackInputSpec where
  type : String
  required : Bool
  description : String

/-- Slack's `OutputSpec` struct (type only). -/
structure SlackOutputSpec where
  type : String

/-- Slack's `ActionSpec` struct. -/
structure SlackActionSpec where
  description : String
  inputs : List (String × SlackInputSpec)
  outputs : List (String × SlackOutputSpec)

/-- JSON encoding of Slack's `InputSpec`. -/
def encodeSlackInputSpec (s : SlackInputSpec) : Json :=
  Json.obj [("type", Json.str s.type), ("required", Json.bool s.required),
    ("description", Json.str s.description)]

/-- JSON encoding of Slack's `ActionSpec`. -/
def encodeSlackActionSpec (s : SlackActionSpec) : Json :=
  Json.obj [("description", Json.str s.description),
    ("inputs", Json.obj (s.inputs.map (fun p => (p.1, encodeSlackInputSpec p.2)))),
    ("outputs", Json.obj (s.outputs.map (fun p => (p.1, Json.obj [("type", Json.str p.2.type)]))))]

/-- `SlackPlugin` state: static metadata plus the `SLACK_BOT_TOKEN` and
`SLACK_WEBHOOK_URL` environment values captured by `NewSlackPlugin`
(the HTTP client is an external collaborator). -/
structure SlackPlugin where
  token : String
  webhookURL : String

/-- `SlackPlugin.GetMetadata` (the `metadata` field of `NewSlackPlugin`). -/
def slackGetMetadata : Metadata :=
  { name := "slack", version := "1.0.0",
    description := "Slack workspace messaging and notifications",
    author := "Corynth Team", tags := ["slack", "messaging", "notifications"] }

/-- `SlackPlugin.GetActions`. -/
def slackGetActions : List (String × SlackActionSpec) :=
  [("message",
    { description := "Send message to channel",
      inputs :=
        [("channel", { type := "string", required := true, description := "Channel name or ID" }),
         ("text", { type := "string", required := true, description := "Message text" }),
         ("username", { type := "string", required := false, description := "Bot username" }),
         ("icon_emoji", { type := "string", required := false, description := "Bot emoji icon" })],
      outputs := [("success", { type := "boolean" }), ("timestamp", { type := "string" })] }),
   ("webhook",
    { description := "Send webhook message",
      inputs :=
        [("text", { type := "string", required := true, description := "Message text" }),
         ("username", { type := "string", required := false, description := "Bot username" }),
         ("channel", { type := "string", required := false, description := "Override channel" })],
      outputs := [("success", { type := "boolean" })] })]

/-- `SlackPlugin.sendMessage` up to its configuration guard: without a
bot token it returns the `SLACK_BOT_TOKEN not configured` envelope
before any request is built; with a token it proceeds to the Slack Web
API (an external collaborator — residual `none`). -/
def sendMessage (s : SlackPlugin) (_params : Obj) : Option Obj :=
  if s.token = "" then some [("error", Json.str "SLACK_BOT_TOKEN not configured")]
  else none

/-- `SlackPlugin.sendWebhook` up to its configuration guard, as
`sendMessage`. -/
def sendWebhook (s : SlackPlugin) (_params : Obj) : Option Obj :=
  if s.webhookURL = "" then some [("error", Json.str "SLACK_WEBHOOK_URL not configured")]
  else none

/-- `SlackPlugin.Execute`: single-valued dispatch (no Go error return);
unknown actions yield `Unknown action: <name>` — capitalized, unlike the
template runtime's `unknown action: <name>`. -/
def slackExecute (s : SlackPlugin) (action : String) (params : Obj) : Option Obj :=
  if action = "message" then sendMessage s params
  else if action = "webhook" then sendWebhook s params
  else some [("error", Json.str ("Unknown action: " ++ action))]

/-- The slack binary's `main`: unlike the template runtime it never
reports stdin decode failures — `json.NewDecoder(os.Stdin).Decode`
errors (empty stdin, unreadable stdin, or invalid JSON alike) fall back
to empty params and the action is executed anyway.  `none` means the
invocation reached the external Slack API, so the process outcome is
decided outside this model. -/
def runSlackMain (s : SlackPlugin) (argv : Option String) (stdin : Stdin) :
    Option (Json × Nat) :=
  match argv with
  | none => some (errObj "action required", 1)
  | some action =>
    if action = "metadata" then some (encodeMetadata slackGetMetadata, 0)
    else if action = "actions" then
      some (Json.obj (slackGetActions.map (fun p => (p.1, encodeSlackActionSpec p.2))), 0)
    else
      let params : Obj :=
        match stdin with
        | .parsed ps => ps
        | _ => []
      (slackExecute s action params).map (fun env => (Json.obj env, 0))

/-- `LLMPlugin.GetMetadata`. -/
def llmGetMetadata : Metadata :=
  { name := "llm", version := "1.0.0",
    description := "Large Language Model integration (OpenAI, Ollama)",
    author := "Corynth Team", tags := ["llm", "ai", "gpt", "openai", "ollama"] }

/-- Llm `ActionOutput` struct (type only). -/
structure LlmActionOutput where
  type : String

/-- Llm `Action` struct: description, inputs (same shape as `IOSpec`),
outputs. -/
structure LlmAction where
  description : String
  inputs : List (String × IOSpec)
  outputs : List (String × LlmActionOutput)

/-- JSON encoding of an llm `Action`. -/
def encodeLlmAction (a : LlmAction) : Json :=
  Json.obj [("description", Json.str a.description),
    ("inputs", Json.obj (a.inputs.map (fun p => (p.1, encodeIOSpec p.2)))),
    ("outputs", Json.obj (a.outputs.map (fun p => (p.1, Json.obj [("type", Json.str p.2.type)]))))]

/-- `LLMPlugin.GetActions`. -/
def llmGetActions : List (String × LlmAction) :=
  [("generate",
    { description := "Generate text using LLM",
      inputs :=
        [("prompt",
          { type := "string", required := true, default := none,
            description := "Input prompt" }),
         ("model",
          { type := "string", required := false, default := some (Json.str "gpt-3.5-turbo"),
            description := "Model name" }),
         ("max_tokens",
          { type := "number", required := false, default := some (Json.num 150),
            description := "Max tokens" }),
         ("temperature",
          { type := "number", required := false, default := some (Json.num (7/10)),
            description := "Temperature" })],
      outputs := [("text", { type := "string" }), ("usage", { type := "object" })] }),
   ("chat",
    { description := "Chat conversation",
      inputs :=
        [("messages",
          { type := "array", required := true, default := none,
            description := "Message history" }),
         ("model",
          { type := "string", required := false, default := some (Json.str "gpt-3.5-turbo"),
            description := "Model name" })],
      outputs := [("response", { type := "string" }), ("usage", { type := "object" })] }),
   ("ollama",
    { description := "Use local Ollama model",
      inputs :=
        [("prompt",
          { type := "string", required := true, default := none,
            description := "Input prompt" }),
         ("model",
          { type := "string", required := false, default := some (Json.str "llama2"),
            description := "Ollama model name" })],
      outputs := [("response", { type := "string" })] })]

/-- `LLMPlugin.Execute`: single-valued dispatch; `generate`, `chat` and
`ollama` consult environment credentials and an external LLM API
(residual `none`); anything else yields the capitalized
`Unknown action: <name>` envelope. -/
def llmExecute (action : String) (_params : Obj) : Option Obj :=
  if action = "generate" then none
  else if action = "chat" then none
  else if action = "ollama" then none
  else some [("error", Json.str ("Unknown action: " ++ action))]

/-- The mode switch of the llm `main`, after stdin handling. -/
def llmProceed (action : String) (params : Obj) : Option (Json × Nat) :=
  if action = "metadata" then some (encodeMetadata llmGetMetadata, 0)
  else if action = "actions" then
    some (Json.obj (llmGetActions.map (fun p => (p.1, encodeLlmAction p.2))), 0)
  else (llmExecute action params).map (fun env => (Json.obj env, 0))

/-- The llm binary's `main`: it reads and parses stdin BEFORE the mode
switch, so even `metadata` and `actions` invocations consume stdin, and
non-empty stdin that fails `json.Unmarshal` (after whitespace trimming)
makes every mode return the `Invalid JSON input: <err>` envelope (exit
0).  A stdin read error is ignored (`err == nil &&` guard) and leaves
params empty. -/
def runLlmMain (argv : Option String) (stdin : Stdin) : Option (Json × Nat) :=
  match argv with
  | none => some (errObj "action required", 1)
  | some action =>
    match stdin with
    | .malformed m => some (errObj ("Invalid JSON input: " ++ m), 0)
    | .parsed ps => llmProceed action ps
    | _ => llmProceed action []

/-- The declared default of one input parameter in an action table. -/
def inputDefault (acts : List (String × ActionSpec)) (action param : String) : Option Json :=
  match List.lookup action acts with
  | some s =>
    match List.lookup param s.inputs with
    | some i => i.default
    | none => none
  | none => none

/-- Evaluation of an expression reaches a division or modulo whose right
operand evaluates to 0: either at the node itself (both operands
evaluated, the divisor to 0), or inside the left operand, or inside the
right operand after the left operand evaluated successfully, or under a
unary operator or parentheses.  This mirrors the strict left-to-right
evaluation order of `evalNode` / `evalBinaryExpr`. -/
inductive ReachesZeroDiv : Expr → Prop where
  | quoHere (x y : Expr) (v : ℚ) :
    evalNode x = .ok v → evalNode y = .ok 0 → ReachesZeroDiv (.binary .quo x y)
  | remHere (x y : Expr) (v : ℚ) :
    evalNode x = .ok v → evalNode y = .ok 0 → ReachesZeroDiv (.binary .rem x y)
  | binLeft (op : Op) (x y : Expr) :
    ReachesZeroDiv x → ReachesZeroDiv (.binary op x y)
  | binRight (op : Op) (x y : Expr) (v : ℚ) :
    evalNode x = .ok v → ReachesZeroDiv y → ReachesZeroDiv (.binary op x y)
  | underUnary (op : Op) (x : Expr) :
    ReachesZeroDiv x → ReachesZeroDiv (.unary op x)
  | underParen (x : Expr) :
    ReachesZeroDiv x → ReachesZeroDiv (.paren x)

theorem evalNode_error_of_reachesZeroDiv (t : Expr) (h : ReachesZeroDiv t) :
    ∃ msg, evalNode t = .error msg ∧
      (msg = "division by zero" ∨ msg = "modulo by zero") := by
  induction h with
  | quoHere x y v hx hy =>
    refine ⟨"division by zero", ?_, Or.inl rfl⟩
    simp [evalNode, hx, hy, evalBinaryExpr]
  | remHere x y v hx hy =>
    refine ⟨"modulo by zero", ?_, Or.inr rfl⟩
    simp [evalNode, hx, hy, evalBinaryExpr]
  | binLeft op x y hx ih =>
    obtain ⟨msg, hmsg, hor⟩ := ih
    exact ⟨msg, by simp [evalNode, hmsg], hor⟩
  | binRight op x y v hx hy ih =>
    obtain ⟨msg, hmsg, hor⟩ := ih
    exact ⟨msg, by simp [evalNode, hx, hmsg], hor⟩
  | underUnary op x hx ih =>
    obtain ⟨msg, hmsg, hor⟩ := ih
    exact ⟨msg, by simp [evalNode, hmsg], hor⟩
  | underParen x hx ih =>
    obtain ⟨msg, hmsg, hor⟩ := ih
    exact ⟨msg, by simp [evalNode, hmsg], hor⟩

/-- Claim C1 (counterexample): not every plugin binary writes
`{"error": "unknown action: <name>"}` on an unregistered action — the
slack binary (argv `badaction`, empty stdin) writes
`{"error": "Unknown action: badaction"}`, with a capital U, though still
with exit code 0. -/
theorem slack_unknown_action_capitalized :
    runSlackMain { token := "", webhookURL := "" } (some "badaction") Stdin.empty =
      some (Json.obj [("error", Json.str "Unknown action: badaction")], 0) ∧
    ("Unknown action: badaction" : String) ≠ "unknown action: badaction" := by
  exact ⟨rfl, by decide⟩

/-- Claim C1 (amended): on the template-style runtime (calculator, http,
aws, sql, email, template, reporting, ansible, file binaries), an
execute-mode invocation with an unregistered action name and stdin that
is empty or decodes writes the single envelope
`{"error": "unknown action: <name>"}` and exits 0, never a fault; shown
for the calculator binary, whose only registered action is `calculate`.
The slack, llm and terraform binaries instead capitalize the message
(`Unknown action: <name>`), still with exit code 0. -/
theorem template_runtime_unknown_action :
    ∀ (a : String) (ps : Obj), a ≠ "metadata" → a ≠ "actions" → a ≠ "calculate" →
    runMain calculatorPlugin (some a) Stdin.empty = (errObj ("unknown action: " ++ a), 0) ∧
    runMain calculatorPlugin (some a) (Stdin.parsed ps) = (errObj ("unknown action: " ++ a), 0) := by
  intro a ps h1 h2 h3
  constructor <;>
    simp [runMain, h1, h2, calculatorPlugin, calculatorExecute, h3, encodeResult, errObj]

/-- Claim C1 (witness, Scenario D): argv `badaction`, empty stdin, on the
calculator binary. -/
theorem template_runtime_unknown_action_witness :
    runMain calculatorPlugin (some "badaction") Stdin.empty =
      (errObj ("unknown action: " ++ "badaction"), 0) :=
  (template_runtime_unknown_action "badaction" [] (by decide) (by decide) (by decide)).1

/-- Claim C2: decoding `{}` against the http plugin's `get` action spec
(`url` a required string, `timeout` a number with default 30) fails with
`MissingParameter(url)` under the spec's codec, and the handler
`makeGetRequest` surfaces the failure as an envelope naming the `url`
parameter (`{"error": "url is required"}`, nil Go error) before any
request is made. -/
theorem http_get_missing_url :
    (List.lookup "get" httpGetActions).map (fun s => specDecode [] s.inputs) =
      some (.error (.missingParameter "url")) ∧
    makeGetRequestCheck [] = some (some [("error", Json.str "url is required")], none) := by
  exact ⟨rfl, rfl⟩

/-- Claim C3 (counterexample): the template plugin declares
`optional_param` with type `number`, yet the input
`{"input_param": "hello", "optional_param": "oops"}` — whose
`optional_param` is a string — does not fail with a TypeMismatch error:
`exampleAction` succeeds, silently substituting the default 10. -/
theorem template_type_mismatch_not_reported :
    (templateGetActions.map (fun p => p.2.inputs.map (fun q => (q.1, q.2.type)))) =
      [[("input_param", "string"), ("optional_param", "number")]] ∧
    jsonTypeOf (Json.str "oops") = "string" ∧
    exampleAction [("input_param", Json.str "hello"), ("optional_param", Json.str "oops")] =
      (some [("result", Json.str "Processed hello with value 10.00"),
        ("success", Json.bool true)], none) := by
  refine ⟨rfl, rfl, ?_⟩
  have hf : formatFloat2 10 = "10.00" := by
    norm_num [formatFloat2]
    rfl
  rw [show exampleAction [("input_param", Json.str "hello"), ("optional_param", Json.str "oops")] =
    (some [("result", Json.str ("Processed " ++ "hello" ++ " with value " ++ formatFloat2 10)),
      ("success", Json.bool true)], none) from rfl, hf,
    show ("Processed " ++ "hello" ++ " with value " ++ "10.00" : String) =
      "Processed hello with value 10.00" by decide]

/-- Claim C3 (amended): a declared REQUIRED parameter present with an
incompatible JSON type makes the handler fail with an envelope naming
the parameter and its expected type (`input_param must be a string`),
but without reporting the observed JSON type; a declared OPTIONAL
parameter present with an incompatible type does not fail at all — the
failed type assertion silently yields the handler default (10 for
`optional_param`, and in general `getFloatParam` returns its caller's
default). -/
theorem template_type_check_behavior :
    (∀ (params : Obj) (v : Json), Obj.get params "input_param" = some v →
      jsonTypeOf v ≠ "string" →
      exampleAction params = (some [("error", Json.str "input_param must be a string")], none)) ∧
    (∀ (params : Obj) (w : Json) (d : ℚ), Obj.get params "optional_param" = some w →
      jsonTypeOf w ≠ "number" →
      optionalParamOf params = 10 ∧ getFloatParam params "optional_param" d = d) := by
  constructor
  · intro params v hv hty
    unfold exampleAction
    rw [hv]
    cases v <;> simp_all [jsonTypeOf]
  · intro params w d hw hty
    unfold optionalParamOf getFloatParam
    rw [hw]
    cases w <;> simp_all [jsonTypeOf]

/-- Claim C3 (witness): `{"input_param": 42}` yields the required-type
failure envelope; `{"optional_param": "x"}` silently falls back to 10. -/
theorem template_type_check_behavior_witness :
    exampleAction [("input_param", Json.num 42)] =
      (some [("error", Json.str "input_param must be a string")], none) ∧
    optionalParamOf [("optional_param", Json.str "x")] = 10 :=
  ⟨template_type_check_behavior.1 [("input_param", Json.num 42)] (Json.num 42) rfl (by decide),
   (template_type_check_behavior.2 [("optional_param", Json.str "x")] (Json.str "x") 10 rfl
     (by decide)).1⟩

/-- Claim C4: an optional declared parameter absent from the input
receives exactly the ParamSpec default — the calculator's `precision`
defaults to the declared 2, the template's `optional_param` to the
declared 10 (the required `expression`/`input_param` entries declare no
default, matching "absent default means no value"). -/
theorem optional_absent_gets_spec_default :
    ∀ (ps qs : Obj), Obj.get ps "precision" = none → Obj.get qs "optional_param" = none →
    inputDefault calculatorGetActions "calculate" "precision" =
      some (Json.num ((precisionOf ps : ℤ) : ℚ)) ∧
    inputDefault templateGetActions "example_action" "optional_param" =
      some (Json.num (optionalParamOf qs)) := by
  intro ps qs hp hq
  have h1 : precisionOf ps = 2 := by simp [precisionOf, hp]
  have h2 : optionalParamOf qs = 10 := by simp [optionalParamOf, hq]
  have hc : ((2 : ℤ) : ℚ) = (2 : ℚ) := by norm_num
  rw [h1, h2, hc]
  exact ⟨rfl, rfl⟩

/-- Claim C4 (witness): the empty input object. -/
theorem optional_absent_gets_spec_default_witness :
    inputDefault calculatorGetActions "calculate" "precision" =
      some (Json.num ((precisionOf [] : ℤ) : ℚ)) ∧
    inputDefault templateGetActions "example_action" "optional_param" =
      some (Json.num (optionalParamOf [])) :=
  optional_absent_gets_spec_default [] [] rfl rfl

/-- Claim C5 (counterexample): on the slack binary, execute-mode
invocations with non-empty, non-JSON stdin do NOT produce an
InvalidInput failure envelope and DO invoke the handler: the decode
error is swallowed, params fall back to `{}`, and `Execute` runs — an
unknown action still reports `Unknown action: ...`, and the registered
`message` action runs its handler (here failing on missing
configuration, not on the malformed input). -/
theorem slack_malformed_stdin_executes_handler :
    runSlackMain { token := "", webhookURL := "" } (some "badaction")
      (Stdin.malformed "unexpected end of JSON input") =
      some (Json.obj [("error", Json.str "Unknown action: badaction")], 0) ∧
    runSlackMain { token := "", webhookURL := "" } (some "message")
      (Stdin.malformed "unexpected end of JSON input") =
      some (Json.obj [("error", Json.str "SLACK_BOT_TOKEN not configured")], 0) :=
  ⟨rfl, rfl⟩

/-- Claim C5 (amended): on the template-style runtime (calculator, http,
aws, sql, email, template, reporting, ansible, file), an execute-mode
invocation whose stdin is non-empty but not a valid JSON object yields a
failure envelope carrying the parse error text, with exit code 0, and
the action handler is not invoked (the output is the same whatever the
`Execute` function is).  The slack binary diverges: it substitutes empty
parameters and invokes the handler. -/
theorem template_runtime_malformed_stdin :
    ∀ (p : Plugin) (a m : String), a ≠ "metadata" → a ≠ "actions" →
    runMain p (some a) (Stdin.malformed m) = (errObj (p.parseErrText ++ m), 0) ∧
    (∀ f g : String → Obj → Option Obj × Option String,
      runMain { p with execute := f } (some a) (Stdin.malformed m) =
        runMain { p with execute := g } (some a) (Stdin.malformed m)) := by
  intro p a m h1 h2
  exact ⟨by simp [runMain, h1, h2], fun f g => by simp [runMain, h1, h2]⟩

/-- Claim C5 (witness): the calculator binary, action `calculate`,
malformed stdin. -/
theorem template_runtime_malformed_stdin_witness :
    runMain calculatorPlugin (some "calculate")
      (Stdin.malformed "unexpected end of JSON input") =
      (errObj (calculatorPlugin.parseErrText ++ "unexpected end of JSON input"), 0) :=
  (template_runtime_malformed_stdin calculatorPlugin "calculate"
    "unexpected end of JSON input" (by decide) (by decide)).1

/-- Claim C6: an execute-mode invocation with empty stdin is treated as
the empty parameter object — the registered handler is invoked through
`Execute` with the empty map, with no decode error, and the process
exits 0 (template-style runtime, all plugins). -/
theorem empty_stdin_executes_with_empty_params :
    ∀ (p : Plugin) (a : String), a ≠ "metadata" → a ≠ "actions" →
    runMain p (some a) Stdin.empty = (encodeResult (p.execute a []), 0) := by
  intro p a h1 h2
  simp [runMain, h1, h2]

/-- Claim C6 (witness): the calculator binary with action `calculate`
and empty stdin (the handler runs with `{}` and reports its own
business-level failure, not a decode error). -/
theorem empty_stdin_executes_with_empty_params_witness :
    runMain calculatorPlugin (some "calculate") Stdin.empty =
      (encodeResult (calculatorPlugin.execute "calculate" []), 0) :=
  empty_stdin_executes_with_empty_params calculatorPlugin "calculate" (by decide) (by decide)

theorem snd_zero_aux (x : Option Obj) :
    ((x.map (fun env => (Json.obj env, (0 : Nat)))).map Prod.snd).getD 0 = 0 := by
  cases x <;> rfl

theorem llmProceed_snd (a : String) (ps : Obj) :
    ((llmProceed a ps).map Prod.snd).getD 0 = 0 := by
  unfold llmProceed
  split_ifs <;> first | rfl | exact snd_zero_aux _

/-- Claim C7: a plugin process exits 0 on every completed protocol
exchange (including business failures reported in the JSON body), and
exits non-zero only when the mode argument is missing — in which case it
still writes the minimal envelope `{"error": "action required"}` to
stdout first.  Shown for the template-style runtime and for the
divergent slack and llm runtimes (whose externally-completed exchanges
are `none` in the model and carry exit code 0 whenever they complete in
the model). -/
theorem plugin_exit_codes :
    ∀ (p : Plugin) (s : SlackPlugin) (a : String) (stdin : Stdin),
    runMain p none stdin = (errObj "action required", 1) ∧
    (runMain p (some a) stdin).2 = 0 ∧
    runSlackMain s none stdin = some (errObj "action required", 1) ∧
    ((runSlackMain s (some a) stdin).map Prod.snd).getD 0 = 0 ∧
    runLlmMain none stdin = some (errObj "action required", 1) ∧
    ((runLlmMain (some a) stdin).map Prod.snd).getD 0 = 0 := by
  intro p s a stdin
  refine ⟨rfl, ?_, rfl, ?_, rfl, ?_⟩
  · cases stdin <;> (dsimp only [runMain]; split_ifs <;> rfl)
  · cases stdin <;> (dsimp only [runSlackMain]; split_ifs <;> first | rfl | exact snd_zero_aux _)
  · cases stdin <;> (dsimp only [runLlmMain]; first | rfl | exact llmProceed_snd a _)

/-- Claim C8 (Scenario A): the calculator's `calculate` action on
`{"expression": "2 + 2 * 3"}` yields the success envelope
`{"result": 8, "expression": "2 + 2 * 3"}` — multiplication binds
tighter than addition and the original expression is echoed. -/
theorem calculator_scenario_a :
    runMain calculatorPlugin (some "calculate")
      (Stdin.parsed [("expression", Json.str "2 + 2 * 3")]) =
      (Json.obj [("result", Json.num 8), ("expression", Json.str "2 + 2 * 3")], 0) := by
  have he : evaluateExpression "2 + 2 * 3" = .ok 8 := by
    have hp : parseGoExpr "2 + 2 * 3" =
        some (.binary .add (.lit .int "2") (.binary .mul (.lit .int "2") (.lit .int "3"))) := rfl
    rw [evaluateExpression, hp]
    simp [evalNode, evalBasicLit, show strToNat "2" = some 2 from rfl,
      show strToNat "3" = some 3 from rfl, evalBinaryExpr]
    norm_num
  have hc : calculate [("expression", Json.str "2 + 2 * 3")] =
      (some [("result", Json.num 8), ("expression", Json.str "2 + 2 * 3")], none) := by
    have hg : Obj.get [("expression", Json.str "2 + 2 * 3")] "expression" =
        some (Json.str "2 + 2 * 3") := rfl
    have hprec : precisionOf [("expression", Json.str "2 + 2 * 3")] = 2 := rfl
    rw [calculate, hg]
    simp [he, hprec, goRound]
    norm_num
  rw [show runMain calculatorPlugin (some "calculate")
      (Stdin.parsed [("expression", Json.str "2 + 2 * 3")]) =
      (encodeResult (calculate [("expression", Json.str "2 + 2 * 3")]), 0) from rfl, hc]
  rfl

/-- Claim C9 (counterexample): the llm binary reads stdin even in
`metadata` mode — with malformed stdin it answers with an
`Invalid JSON input` envelope instead of its static metadata, so two
metadata invocations with different stdin contents produce different
JSON. -/
theorem llm_discovery_reads_stdin :
    runLlmMain (some "metadata") (Stdin.malformed "unexpected end of JSON input") =
      some (errObj "Invalid JSON input: unexpected end of JSON input", 0) ∧
    runLlmMain (some "metadata") Stdin.empty = some (encodeMetadata llmGetMetadata, 0) ∧
    errObj "Invalid JSON input: unexpected end of JSON input" ≠ encodeMetadata llmGetMetadata := by
  refine ⟨?_, rfl, ?_⟩
  · rw [show runLlmMain (some "metadata") (Stdin.malformed "unexpected end of JSON input") =
      some (errObj ("Invalid JSON input: " ++ "unexpected end of JSON input"), 0) from rfl,
      show ("Invalid JSON input: " ++ "unexpected end of JSON input" : String) =
        "Invalid JSON input: unexpected end of JSON input" by decide]
  · simp [errObj, encodeMetadata, llmGetMetadata]

/-- Claim C9 (amended): on the template-style runtime and on the slack
runtime, `metadata` and `actions` modes never read stdin — the output is
the plugin's static JSON whatever stdin holds, so repeated invocations
agree.  The llm binary violates this (it parses stdin in every mode and
fails on garbage), and the terraform binary also reads stdin in
discovery modes though its output is unaffected. -/
theorem template_runtime_discovery_ignores_stdin :
    ∀ (p : Plugin) (s : SlackPlugin) (s1 s2 : Stdin),
    runMain p (some "metadata") s1 = (p.metadataJson, 0) ∧
    runMain p (some "actions") s1 = (p.actionsJson, 0) ∧
    runMain p (some "metadata") s1 = runMain p (some "metadata") s2 ∧
    runMain p (some "actions") s1 = runMain p (some "actions") s2 ∧
    runSlackMain s (some "metadata") s1 = runSlackMain s (some "metadata") s2 ∧
    runSlackMain s (some "actions") s1 = runSlackMain s (some "actions") s2 := by
  intro p s s1 s2
  exact ⟨rfl, rfl, rfl, rfl, rfl, rfl⟩

/-- Claim C10: whenever evaluation of a parsed expression reaches a
division or modulo whose right operand evaluates to 0, the `calculate`
action returns a failure envelope (nil Go error) whose error text starts
with `Invalid expression:`, together with the original expression in the
envelope's `expression` field — the zero-divisor branches are guarded
and evaluation never faults. -/
theorem calculate_zero_divisor_guarded :
    ∀ (s : String) (t : Expr) (msg : String),
    parseGoExpr s = some t → ReachesZeroDiv t → evalNode t = .error msg →
    (msg = "division by zero" ∨ msg = "modulo by zero") ∧
    calculate [("expression", Json.str s)] =
      (some [("error", Json.str ("Invalid expression: " ++ msg)),
        ("expression", Json.str s)], none) := by
  intro s t msg hp hr hm
  obtain ⟨m, hm2, hd⟩ := evalNode_error_of_reachesZeroDiv t hr
  rw [hm] at hm2
  injection hm2 with hmm
  subst hmm
  refine ⟨hd, ?_⟩
  have hs : s ≠ "" := by
    intro h0
    subst h0
    rw [show parseGoExpr "" = none from rfl] at hp
    simp at hp
  have hg : Obj.get [("expression", Json.str s)] "expression" = some (Json.str s) := rfl
  have hev : evaluateExpression s = .error msg := by
    unfold evaluateExpression
    rw [hp]
    exact hm
  unfold calculate
  rw [hg]
  simp [hs, hev]

/-- Claim C10 (witness): the expression `1/0`. -/
theorem calculate_zero_divisor_guarded_witness :
    calculate [("expression", Json.str "1/0")] =
      (some [("error", Json.str ("Invalid expression: " ++ "division by zero")),
        ("expression", Json.str "1/0")], none) := by
  have h1 : evalBasicLit LitKind.int "1" = .ok 1 := by
    simp [evalBasicLit, show strToNat "1" = some 1 from rfl]
  have h0 : evalBasicLit LitKind.int "0" = .ok 0 := by
    simp [evalBasicLit, show strToNat "0" = some 0 from rfl]
  have h1e : evalNode (Expr.lit LitKind.int "1") = .ok 1 := h1
  have h0e : evalNode (Expr.lit LitKind.int "0") = .ok 0 := h0
  have ht : evalNode (Expr.binary .quo (.lit .int "1") (.lit .int "0")) =
      .error "division by zero" := by
    simp [evalNode, h1, h0, evalBinaryExpr]
  exact (calculate_zero_divisor_guarded "1/0"
    (.binary .quo (.lit .int "1") (.lit .int "0")) "division by zero" rfl
    (ReachesZeroDiv.quoHere _ _ 1 h1e h0e) ht).2
